import Mathlib

/-!
Verification of the carry-trade bot (`common.py`, `daily_job.py`, `server.py`).

Embedding conventions:
* Python floats are modelled by exact rationals `ℚ`.  The spec promises no
  precision guarantees beyond standard floating point, and every claim is a
  formula-level statement, so exact arithmetic is the faithful reading.
  Division on `ℚ` is total (`x / 0 = 0`); theorems that depend on a divisor
  carry the positivity preconditions of §4.1 (`usd_inicial > 0`, `mep_hoy > 0`)
  under which Python float division cannot raise either.
* Calendar dates are modelled by their proleptic-Gregorian ordinals (`ℤ`),
  exactly the representation Python's `date.toordinal`/`fromordinal` uses:
  `fi.fromordinal(fi.toordinal() + h)` is `fi + h`, and `(a - b).days` is
  `a - b`.
* `float("nan")` for `margen_pct` is modelled as `Option.none`.
* A raised exception escaping `compute_board` is modelled as `Option.none`
  for the whole result; inside `daily_job.main` exceptions are `Except.error`.
* `today_in_tz(timezone)` is impure; the date it returns is passed to the
  embedded functions as the explicit argument `hoy`, matching §4.1's reading
  of the engine as "pure function of its inputs plus the timezone-derived
  today".
-/

namespace CarryBot

/-- One entry of the `aportes` list (`[["YYYY-MM-DD", monto], ...]`).
`fecha` is the result of `parse_date(str(f_ap))`: `some d` (ordinal) when the
date string parses as `YYYY-MM-DD`, `none` when `parse_date` raises.
`monto` is the result of `float(m_ap)`: `some m` when the amount converts,
`none` when `float` raises. -/
structure Aporte where
  fecha : Option ℤ
  monto : Option ℚ
  deriving DecidableEq, Repr

/-- The dict returned by `compute_board` (common.py lines 161-177).
`margen_pct = none` models `float("nan")`; `alerta` is `None`/`"amarilla"`/
`"roja"` as in the source. -/
structure Board where
  hoy : ℤ
  dia_n : ℤ
  dias_restantes : ℤ
  fecha_90 : ℤ
  mep_hoy : ℚ
  ars_hoy : ℚ
  usd_hoy : ℚ
  delta_usd : ℚ
  be_90 : ℚ
  margen_pct : Option ℚ
  semaforo : String
  texto_senal : String
  umbral_amarillo : ℚ
  umbral_rojo : ℚ
  alerta : Option String
  deriving DecidableEq, Repr

/-- The contribution loop of `compute_board` (common.py lines 135-143): the
total amount added to `ars_90`.  An entry whose `fecha` does not parse is
skipped (`continue` under `except`), an entry dated after `fecha_90` is
skipped, and an entry whose amount does not convert makes `float(m_ap)` raise,
aborting the whole computation (`none`). -/
def accrue_aportes (tna_pesos : ℚ) (fecha_90 : ℤ) : List Aporte → Option ℚ
  | [] => some 0
  | ap :: rest =>
    match ap.fecha with
    | none => accrue_aportes tna_pesos fecha_90 rest
    | some ap_date =>
      if fecha_90 < ap_date then
        accrue_aportes tna_pesos fecha_90 rest
      else
        match ap.monto with
        | none => none
        | some m =>
          (accrue_aportes tna_pesos fecha_90 rest).map
            (fun s => m * (1 + tna_pesos * ((max 0 (fecha_90 - ap_date) : ℤ) / 365 : ℚ)) + s)

/-- The threshold / classification tail of `compute_board` (common.py lines
148-177): given the already-computed scalar fields, compute the thresholds
(`umbral_amarillo = be_90 * 0.95`, `umbral_rojo = be_90 * 1.00`), pick the
traffic-light branch in the source's order, and assemble the returned dict. -/
def mk_board (hoy dia_n dias_restantes fecha_90 : ℤ)
    (mep_hoy ars_hoy usd_hoy delta_usd be_90 : ℚ)
    (margen_pct : Option ℚ) : Board :=
  let umbral_amarillo := be_90 * (95 / 100 : ℚ)
  let umbral_rojo := be_90 * 1
  if mep_hoy < umbral_amarillo then
    { hoy := hoy, dia_n := dia_n, dias_restantes := dias_restantes,
      fecha_90 := fecha_90, mep_hoy := mep_hoy, ars_hoy := ars_hoy,
      usd_hoy := usd_hoy, delta_usd := delta_usd, be_90 := be_90,
      margen_pct := margen_pct, semaforo := "🟢",
      texto_senal := "Vas bien, margen cómodo.",
      umbral_amarillo := umbral_amarillo, umbral_rojo := umbral_rojo,
      alerta := none }
  else if mep_hoy < umbral_rojo then
    { hoy := hoy, dia_n := dia_n, dias_restantes := dias_restantes,
      fecha_90 := fecha_90, mep_hoy := mep_hoy, ars_hoy := ars_hoy,
      usd_hoy := usd_hoy, delta_usd := delta_usd, be_90 := be_90,
      margen_pct := margen_pct, semaforo := "🟡",
      texto_senal := "Cerca del BE, ojo con volatilidad.",
      umbral_amarillo := umbral_amarillo, umbral_rojo := umbral_rojo,
      alerta := some "amarilla" }
  else
    { hoy := hoy, dia_n := dia_n, dias_restantes := dias_restantes,
      fecha_90 := fecha_90, mep_hoy := mep_hoy, ars_hoy := ars_hoy,
      usd_hoy := usd_hoy, delta_usd := delta_usd, be_90 := be_90,
      margen_pct := margen_pct, semaforo := "🔴",
      texto_senal := "MEP ≥ BE: el carry ya no suma USD vs tu base.",
      umbral_amarillo := umbral_amarillo, umbral_rojo := umbral_rojo,
      alerta := some "roja" }

/-- `compute_board` (common.py lines 110-177).  `hoy` is the date
`today_in_tz(timezone)` returned; `fecha_inicio` is the ordinal of the parsed
start date.  Returns `none` when the Python function raises (unconvertible
contribution amount), `some board` otherwise.  `accrue_aportes` is the
contribution loop (lines 135-143), so `ars_90` here is the source's `ars_90`
after the loop finishes. -/
def compute_board (usd_inicial costo_salida : ℚ) (hoy fecha_inicio : ℤ)
    (horizonte_dias : ℤ) (tna_pesos ars_hoy mep_hoy : ℚ)
    (aportes : List Aporte) : Option Board :=
  let fi := fecha_inicio
  let fecha_90 := fi + horizonte_dias
  let dias_transcurridos := hoy - fi
  let dia_n := dias_transcurridos + 1
  let dias_restantes := max 0 (horizonte_dias - dias_transcurridos)
  let usd_hoy := (ars_hoy * (1 - costo_salida)) / mep_hoy
  let delta_usd := usd_hoy - usd_inicial
  (accrue_aportes tna_pesos fecha_90 aportes).map (fun extra =>
    let ars_90 := ars_hoy * (1 + tna_pesos * ((dias_restantes : ℚ) / 365)) + extra
    let be_90 := (ars_90 * (1 - costo_salida)) / usd_inicial
    let margen_pct : Option ℚ :=
      if 0 < be_90 then some ((be_90 - mep_hoy) / be_90) else none
    mk_board hoy dia_n dias_restantes fecha_90 mep_hoy ars_hoy usd_hoy
      delta_usd be_90 margen_pct)

/-- Per-user persisted state: the fields of the `CarryUser` dataclass
(common.py lines 100-108) as stored in `state.json`.  Date strings are
modelled by ordinals; `last_sent` / `last_ars_update` are `none` or the
stored date. -/
structure CarryUser where
  step : String
  ars_hoy : Option ℚ
  tna_pesos : Option ℚ
  horizonte_dias : Option ℤ
  fecha_inicio : ℤ
  aportes : List Aporte
  last_sent : Option ℤ
  last_ars_update : Option ℤ
  deriving DecidableEq, Repr

/-- `send_telegram_message` (common.py lines 74-87) as seen by a caller: it
either succeeds or raises.  `sendOk chat` says whether delivery to that
recipient succeeds; on failure the call raises `Except.error chat`.  On
success the sent `(chat_id, message)` pair is appended to the log. -/
def try_send (sendOk : String → Bool) (log : List (String × String))
    (chat msg : String) : Except String (List (String × String)) :=
  if sendOk chat then Except.ok (log ++ [(chat, msg)]) else Except.error chat

/-- The per-user loop of `daily_job.main` (daily_job.py lines 32-85) in the
default `ARS_MODE=manual` configuration, followed by `save_state` (line 87).
Users are processed in order; an uncaught exception (failed send, or
`compute_board` raising) propagates out of `main`, so the remaining users are
not processed and `save_state` never runs: the result is `Except.error` with
the chat id where the exception arose.  On success it returns the saved users
(in order, with `last_sent` updates applied) and the log of sent messages.
The texts of the two formatted messages (`build_daily_message`, the alert from
`build_alert_message`) are abstracted as the tags `"<daily>"` and `"<alert>"`:
the claims about this driver concern delivery control flow, not formatting. -/
def run_daily (sendOk : String → Bool) (hoy : ℤ) (mep : ℚ)
    (usd_inicial costo_salida : ℚ) :
    List (String × CarryUser) →
      Except String (List (String × CarryUser) × List (String × String))
  | [] => Except.ok ([], [])
  | (chat, user) :: rest =>
    if user.step ≠ "ready" then
      (run_daily sendOk hoy mep usd_inicial costo_salida rest).map
        (fun r => ((chat, user) :: r.1, r.2))
    else if user.last_sent = some hoy then
      (run_daily sendOk hoy mep usd_inicial costo_salida rest).map
        (fun r => ((chat, user) :: r.1, r.2))
    else
      match user.ars_hoy with
      | none =>
        (try_send sendOk [] chat
            "Me falta tu ARS actual. Actualizá state.json (ars_hoy) y listo.").bind
          (fun sent =>
            (run_daily sendOk hoy mep usd_inicial costo_salida rest).map
              (fun r => ((chat, { user with last_sent := some hoy }) :: r.1,
                         sent ++ r.2)))
      | some ars =>
        match user.tna_pesos, user.horizonte_dias with
        | some tna, some dias =>
          match compute_board usd_inicial costo_salida hoy user.fecha_inicio
              dias tna ars mep user.aportes with
          | none => Except.error chat
          | some board =>
            (try_send sendOk [] chat "<daily>").bind (fun sent1 =>
              (if (board.alerta).isSome then
                  try_send sendOk sent1 chat "<alert>"
                else Except.ok sent1).bind (fun sent2 =>
                (run_daily sendOk hoy mep usd_inicial costo_salida rest).map
                  (fun r => ((chat, { user with last_sent := some hoy }) :: r.1,
                             sent2 ++ r.2))))
        | _, _ =>
          (try_send sendOk [] chat
              "Me falta config (tna_pesos o horizonte_dias) en state.json.").bind
            (fun sent =>
              (run_daily sendOk hoy mep usd_inicial costo_salida rest).map
                (fun r => ((chat, { user with last_sent := some hoy }) :: r.1,
                           sent ++ r.2)))

/-- The `aporte` branch of `process_message` (server.py lines 172-179),
reached when `user.step = "ready"` and the text is `"aporte X"` with
`normalize_number` parsing `X` to `monto`.  `hoy` is `today_in_tz(TIMEZONE)`.
Appends `[hoy, monto]` to `aportes`, then, if `ars_hoy` is set, adds `monto`
to it; returns the updated user and the reply text. -/
def process_aporte (hoy : ℤ) (user : CarryUser) (monto : ℚ) :
    CarryUser × String :=
  let nuevo : Aporte := { fecha := some hoy, monto := some monto }
  let user1 := { user with aportes := user.aportes ++ [nuevo] }
  let user2 :=
    match user1.ars_hoy with
    | some a => { user1 with ars_hoy := some (a + monto) }
    | none => user1
  (user2, "✅ Aporte registrado.")

/-- Stated from the spec's words (§4.1 item 9), for comparison with the
code's contribution loop: the sum, over the contributions dated on or before
`horizon_end`, of each amount accrued with
`days_to_horizon = max(0, horizon_end - contrib_date)`; contributions dated
after `horizon_end` or with unparseable dates contribute nothing. -/
def spec_contrib_accrual (annual_rate : ℚ) (horizon_end : ℤ)
    (contributions : List Aporte) : ℚ :=
  (contributions.map (fun ap =>
    match ap.fecha, ap.monto with
    | some d, some m =>
      if d ≤ horizon_end then
        m * (1 + annual_rate * ((max 0 (horizon_end - d) : ℤ) / 365 : ℚ))
      else 0
    | _, _ => 0)).sum

/-- Stated from the spec's words (§4.1 items 8-9): the projected local value
at horizon, `local_value_today * (1 + annual_rate * remaining_days / 365)`
plus the accrued contributions, for comparison with `compute_board`. -/
def spec_projected_local_at_horizon (local_value_today annual_rate : ℚ)
    (remaining_days : ℤ) (horizon_end : ℤ) (contributions : List Aporte) : ℚ :=
  local_value_today * (1 + annual_rate * ((remaining_days : ℚ) / 365)) +
    spec_contrib_accrual annual_rate horizon_end contributions

/-! ### Helper lemmas -/

@[simp]
theorem mk_board_hoy (hoy dia_n dias_restantes fecha_90 : ℤ)
    (mep_hoy ars_hoy usd_hoy delta_usd be_90 : ℚ) (margen_pct : Option ℚ) :
    (mk_board hoy dia_n dias_restantes fecha_90 mep_hoy ars_hoy usd_hoy
        delta_usd be_90 margen_pct).hoy = hoy := by
  unfold mk_board
  dsimp only
  split
  · rfl
  · split <;> rfl

@[simp]
theorem mk_board_dia_n (hoy dia_n dias_restantes fecha_90 : ℤ)
    (mep_hoy ars_hoy usd_hoy delta_usd be_90 : ℚ) (margen_pct : Option ℚ) :
    (mk_board hoy dia_n dias_restantes fecha_90 mep_hoy ars_hoy usd_hoy
        delta_usd be_90 margen_pct).dia_n = dia_n := by
  unfold mk_board
  dsimp only
  split
  · rfl
  · split <;> rfl

@[simp]
theorem mk_board_dias_restantes (hoy dia_n dias_restantes fecha_90 : ℤ)
    (mep_hoy ars_hoy usd_hoy delta_usd be_90 : ℚ) (margen_pct : Option ℚ) :
    (mk_board hoy dia_n dias_restantes fecha_90 mep_hoy ars_hoy usd_hoy
        delta_usd be_90 margen_pct).dias_restantes = dias_restantes := by
  unfold mk_board
  dsimp only
  split
  · rfl
  · split <;> rfl

@[simp]
theorem mk_board_fecha_90 (hoy dia_n dias_restantes fecha_90 : ℤ)
    (mep_hoy ars_hoy usd_hoy delta_usd be_90 : ℚ) (margen_pct : Option ℚ) :
    (mk_board hoy dia_n dias_restantes fecha_90 mep_hoy ars_hoy usd_hoy
        delta_usd be_90 margen_pct).fecha_90 = fecha_90 := by
  unfold mk_board
  dsimp only
  split
  · rfl
  · split <;> rfl

@[simp]
theorem mk_board_mep_hoy (hoy dia_n dias_restantes fecha_90 : ℤ)
    (mep_hoy ars_hoy usd_hoy delta_usd be_90 : ℚ) (margen_pct : Option ℚ) :
    (mk_board hoy dia_n dias_restantes fecha_90 mep_hoy ars_hoy usd_hoy
        delta_usd be_90 margen_pct).mep_hoy = mep_hoy := by
  unfold mk_board
  dsimp only
  split
  · rfl
  · split <;> rfl

@[simp]
theorem mk_board_ars_hoy (hoy dia_n dias_restantes fecha_90 : ℤ)
    (mep_hoy ars_hoy usd_hoy delta_usd be_90 : ℚ) (margen_pct : Option ℚ) :
    (mk_board hoy dia_n dias_restantes fecha_90 mep_hoy ars_hoy usd_hoy
        delta_usd be_90 margen_pct).ars_hoy = ars_hoy := by
  unfold mk_board
  dsimp only
  split
  · rfl
  · split <;> rfl

@[simp]
theorem mk_board_usd_hoy (hoy dia_n dias_restantes fecha_90 : ℤ)
    (mep_hoy ars_hoy usd_hoy delta_usd be_90 : ℚ) (margen_pct : Option ℚ) :
    (mk_board hoy dia_n dias_restantes fecha_90 mep_hoy ars_hoy usd_hoy
        delta_usd be_90 margen_pct).usd_hoy = usd_hoy := by
  unfold mk_board
  dsimp only
  split
  · rfl
  · split <;> rfl

@[simp]
theorem mk_board_delta_usd (hoy dia_n dias_restantes fecha_90 : ℤ)
    (mep_hoy ars_hoy usd_hoy delta_usd be_90 : ℚ) (margen_pct : Option ℚ) :
    (mk_board hoy dia_n dias_restantes fecha_90 mep_hoy ars_hoy usd_hoy
        delta_usd be_90 margen_pct).delta_usd = delta_usd := by
  unfold mk_board
  dsimp only
  split
  · rfl
  · split <;> rfl

@[simp]
theorem mk_board_be_90 (hoy dia_n dias_restantes fecha_90 : ℤ)
    (mep_hoy ars_hoy usd_hoy delta_usd be_90 : ℚ) (margen_pct : Option ℚ) :
    (mk_board hoy dia_n dias_restantes fecha_90 mep_hoy ars_hoy usd_hoy
        delta_usd be_90 margen_pct).be_90 = be_90 := by
  unfold mk_board
  dsimp only
  split
  · rfl
  · split <;> rfl

@[simp]
theorem mk_board_margen_pct (hoy dia_n dias_restantes fecha_90 : ℤ)
    (mep_hoy ars_hoy usd_hoy delta_usd be_90 : ℚ) (margen_pct : Option ℚ) :
    (mk_board hoy dia_n dias_restantes fecha_90 mep_hoy ars_hoy usd_hoy
        delta_usd be_90 margen_pct).margen_pct = margen_pct := by
  unfold mk_board
  dsimp only
  split
  · rfl
  · split <;> rfl

@[simp]
theorem mk_board_umbral_amarillo (hoy dia_n dias_restantes fecha_90 : ℤ)
    (mep_hoy ars_hoy usd_hoy delta_usd be_90 : ℚ) (margen_pct : Option ℚ) :
    (mk_board hoy dia_n dias_restantes fecha_90 mep_hoy ars_hoy usd_hoy
        delta_usd be_90 margen_pct).umbral_amarillo = be_90 * (95 / 100 : ℚ) := by
  unfold mk_board
  dsimp only
  split
  · rfl
  · split <;> rfl

@[simp]
theorem mk_board_umbral_rojo (hoy dia_n dias_restantes fecha_90 : ℤ)
    (mep_hoy ars_hoy usd_hoy delta_usd be_90 : ℚ) (margen_pct : Option ℚ) :
    (mk_board hoy dia_n dias_restantes fecha_90 mep_hoy ars_hoy usd_hoy
        delta_usd be_90 margen_pct).umbral_rojo = be_90 * 1 := by
  unfold mk_board
  dsimp only
  split
  · rfl
  · split <;> rfl

theorem mk_board_alerta (hoy dia_n dias_restantes fecha_90 : ℤ)
    (mep_hoy ars_hoy usd_hoy delta_usd be_90 : ℚ) (margen_pct : Option ℚ) :
    (mk_board hoy dia_n dias_restantes fecha_90 mep_hoy ars_hoy usd_hoy
        delta_usd be_90 margen_pct).alerta =
      if mep_hoy < be_90 * (95 / 100 : ℚ) then none
      else if mep_hoy < be_90 * 1 then some "amarilla"
      else some "roja" := by
  unfold mk_board
  dsimp only
  by_cases h1 : mep_hoy < be_90 * (95 / 100 : ℚ)
  · simp [h1]
  · by_cases h2 : mep_hoy < be_90 * 1
    · rw [mul_one] at h2
      simp [h1, h2]
    · rw [mul_one] at h2
      simp [h1, h2]

/-- When the contribution loop finishes (no amount-conversion exception),
the total it added is exactly the spec's contribution accrual sum. -/
theorem accrue_aportes_eq_sum (tna : ℚ) (f90 : ℤ) (aps : List Aporte) :
    ∀ s : ℚ, accrue_aportes tna f90 aps = some s →
      s = spec_contrib_accrual tna f90 aps := by
  induction aps with
  | nil =>
    intro s h
    simp only [accrue_aportes, Option.some_inj] at h
    simp [spec_contrib_accrual, ← h]
  | cons ap rest ih =>
    intro s h
    obtain ⟨f, m⟩ := ap
    cases f with
    | none =>
      simp only [accrue_aportes] at h
      simpa [spec_contrib_accrual] using ih s h
    | some d =>
      by_cases hd : f90 < d
      · simp only [accrue_aportes, if_pos hd] at h
        have := ih s h
        cases m <;>
          simp [spec_contrib_accrual, this, if_neg (not_le.mpr hd)] at *
      · cases m with
        | none => simp [accrue_aportes, if_neg hd] at h
        | some mv =>
          simp only [accrue_aportes, if_neg hd, Option.map_eq_some'] at h
          obtain ⟨s0, hs0, rfl⟩ := h
          have := ih s0 hs0
          simp [spec_contrib_accrual, this, if_pos (not_lt.mp hd)]

/-- Destructor for a successful `compute_board` run: the returned board is
`mk_board` applied to the values the source computes in lines 122-146, with
`extra` the total contribution accrual. -/
theorem compute_board_some_iff (usd_inicial costo_salida : ℚ)
    (hoy fecha_inicio horizonte_dias : ℤ) (tna_pesos ars_hoy mep_hoy : ℚ)
    (aportes : List Aporte) (b : Board) :
    compute_board usd_inicial costo_salida hoy fecha_inicio horizonte_dias
        tna_pesos ars_hoy mep_hoy aportes = some b ↔
      ∃ extra,
        accrue_aportes tna_pesos (fecha_inicio + horizonte_dias) aportes =
            some extra ∧
        b = mk_board hoy (hoy - fecha_inicio + 1)
              (max 0 (horizonte_dias - (hoy - fecha_inicio)))
              (fecha_inicio + horizonte_dias) mep_hoy ars_hoy
              ((ars_hoy * (1 - costo_salida)) / mep_hoy)
              ((ars_hoy * (1 - costo_salida)) / mep_hoy - usd_inicial)
              (((ars_hoy * (1 + tna_pesos *
                  ((max 0 (horizonte_dias - (hoy - fecha_inicio)) : ℤ) / 365 : ℚ))
                 + extra) * (1 - costo_salida)) / usd_inicial)
              (if 0 < ((ars_hoy * (1 + tna_pesos *
                  ((max 0 (horizonte_dias - (hoy - fecha_inicio)) : ℤ) / 365 : ℚ))
                 + extra) * (1 - costo_salida)) / usd_inicial then
                 some ((((ars_hoy * (1 + tna_pesos *
                     ((max 0 (horizonte_dias - (hoy - fecha_inicio)) : ℤ) / 365 : ℚ))
                    + extra) * (1 - costo_salida)) / usd_inicial - mep_hoy) /
                   (((ars_hoy * (1 + tna_pesos *
                     ((max 0 (horizonte_dias - (hoy - fecha_inicio)) : ℤ) / 365 : ℚ))
                    + extra) * (1 - costo_salida)) / usd_inicial))
               else none) := by
  simp only [compute_board, Option.map_eq_some']
  constructor
  · rintro ⟨extra, hacc, hb⟩
    exact ⟨extra, hacc, hb.symm⟩
  · rintro ⟨extra, hacc, hb⟩
    exact ⟨extra, hacc, hb.symm⟩

/-! ### Concrete inputs used by witnesses and counterexamples

`739252` is the proleptic-Gregorian ordinal of 2025-01-01 (the spec example's
`start_date` and `today`). -/

/-- The board `compute_board` returns on the spec's §8 example input
(`usd_inicial=1600`, `costo_salida=0.007`, `fecha_inicio=hoy=2025-01-01`,
`horizonte_dias=90`, `tna=0.45`, `ars_hoy=2450000`, `mep_hoy=1200`, no
contributions), written out exactly.  `16219/8 = 2027.375`,
`3419/8 = 427.375`, `39460827/23360 ≈ 1689.2477`,
`3809609/13153609 ≈ 0.289629`. -/
def board_ej : Board :=
  { hoy := 739252, dia_n := 1, dias_restantes := 90, fecha_90 := 739342,
    mep_hoy := 1200, ars_hoy := 2450000, usd_hoy := 16219 / 8,
    delta_usd := 3419 / 8, be_90 := 39460827 / 23360,
    margen_pct := some (3809609 / 13153609), semaforo := "🟢",
    texto_senal := "Vas bien, margen cómodo.",
    umbral_amarillo := 749755713 / 467200, umbral_rojo := 39460827 / 23360,
    alerta := none }

/-! ### Claims -/

/-- C1: for every input meeting the §4.1 preconditions (`quote_today > 0`,
`initial_usd_value > 0`), any board `compute_board` returns has
`break_even_quote = projected_local_at_horizon * (1 - exit_cost_fraction)
/ initial_usd_value`, where `projected_local_at_horizon` is the spec's
`local_value_today * (1 + annual_rate * remaining_days / 365)` plus the
accrued contributions (`spec_projected_local_at_horizon`). -/
theorem C1_break_even_matches_spec
    (usd_inicial costo_salida : ℚ) (hoy fecha_inicio horizonte_dias : ℤ)
    (tna_pesos ars_hoy mep_hoy : ℚ) (aportes : List Aporte) (b : Board)
    (hmep : 0 < mep_hoy) (husd : 0 < usd_inicial)
    (hb : compute_board usd_inicial costo_salida hoy fecha_inicio
        horizonte_dias tna_pesos ars_hoy mep_hoy aportes = some b) :
    b.be_90 =
      spec_projected_local_at_horizon ars_hoy tna_pesos b.dias_restantes
        (fecha_inicio + horizonte_dias) aportes * (1 - costo_salida) /
        usd_inicial := by
  obtain ⟨extra, hacc, rfl⟩ :=
    (compute_board_some_iff _ _ _ _ _ _ _ _ _ _).mp hb
  have hsum := accrue_aportes_eq_sum _ _ _ _ hacc
  simp [spec_projected_local_at_horizon, hsum]

/-- Witness for C1: the spec's §8 example input satisfies the preconditions
and its break-even equals the spec-side projection formula. -/
theorem C1_break_even_matches_spec_witness :
    board_ej.be_90 =
      spec_projected_local_at_horizon 2450000 (45 / 100) board_ej.dias_restantes
        (739252 + 90) [] * (1 - 7 / 1000) / 1600 :=
  C1_break_even_matches_spec 1600 (7 / 1000) 739252 739252 90 (45 / 100)
    2450000 1200 [] board_ej (by norm_num) (by norm_num)
    (by norm_num [compute_board, accrue_aportes, mk_board, board_ej,
      Board.mk.injEq])

/-- Classification facts about the traffic-light branch, for an arbitrary
break-even value `BE`, quote `M`, and the margin as computed in
common.py line 146. -/
theorem mk_board_alert_facts (hoy dn dr f90 : ℤ) (M ars usd delta BE : ℚ)
    (margen : Option ℚ)
    (hm : margen = if 0 < BE then some ((BE - M) / BE) else none) :
    ((mk_board hoy dn dr f90 M ars usd delta BE margen).alerta = none ↔
        M < BE * (95 / 100)) ∧
    ((mk_board hoy dn dr f90 M ars usd delta BE margen).alerta =
        some "amarilla" ↔ BE * (95 / 100) ≤ M ∧ M < BE * 1) ∧
    ((mk_board hoy dn dr f90 M ars usd delta BE margen).alerta =
        some "roja" ↔ BE * (95 / 100) ≤ M ∧ BE * 1 ≤ M) ∧
    (M = BE → 0 < M →
      (mk_board hoy dn dr f90 M ars usd delta BE margen).alerta =
        some "roja") ∧
    (∀ mg, margen = some mg → mg < 0 →
      (mk_board hoy dn dr f90 M ars usd delta BE margen).alerta =
        some "roja") := by
  refine ⟨?_, ?_, ?_, ?_, ?_⟩
  · rw [mk_board_alerta]
    split_ifs with h1 h2 <;> simp [h1]
  · rw [mk_board_alerta]
    split_ifs with h1 h2
    · exact iff_of_false (by simp) (fun h => absurd h1 (not_lt.mpr h.1))
    · exact iff_of_true rfl ⟨le_of_not_lt h1, h2⟩
    · exact iff_of_false (by simp) (fun h => absurd h.2 h2)
  · rw [mk_board_alerta]
    split_ifs with h1 h2
    · exact iff_of_false (by simp) (fun h => absurd h1 (not_lt.mpr h.1))
    · exact iff_of_false (by simp) (fun h => absurd h2 (not_lt.mpr h.2))
    · exact iff_of_true rfl ⟨le_of_not_lt h1, le_of_not_lt h2⟩
  · intro he hpos
    have hbe : (0 : ℚ) < BE := he ▸ hpos
    rw [mk_board_alerta, if_neg (by intro hcon; rw [he] at hcon; linarith),
      if_neg (by intro hcon; rw [mul_one] at hcon; exact absurd (he ▸ hcon) (lt_irrefl _))]
  · intro mg hmg hneg
    rw [hm] at hmg
    by_cases hpos : (0 : ℚ) < BE
    · rw [if_pos hpos] at hmg
      have hv : (BE - M) / BE = mg := Option.some_inj.mp hmg
      have hBM : BE - M < 0 := by
        rcases div_neg_iff.mp (hv ▸ hneg) with ⟨-, h2⟩ | ⟨h1, -⟩
        · linarith
        · exact h1
      have hlt : BE < M := by linarith
      rw [mk_board_alerta, if_neg (by intro hcon; linarith),
        if_neg (by intro hcon; rw [mul_one] at hcon; linarith)]
    · rw [if_neg hpos] at hmg
      exact absurd hmg (by simp)

/-- C2: for every input whose computation succeeds, `compute_board`
classifies the alert exactly as §4.1.13 prescribes:
`warn_threshold = break_even_quote * 0.95`,
`critical_threshold = break_even_quote * 1.00`, first match wins in the
order NONE / WARNING / CRITICAL; hence at `quote_today = break_even_quote`
exactly (with a positive quote, §4.1) the level is CRITICAL, and a negative
`margin_fraction` always classifies as CRITICAL. -/
theorem C2_alert_classification
    (usd_inicial costo_salida : ℚ) (hoy fecha_inicio horizonte_dias : ℤ)
    (tna_pesos ars_hoy mep_hoy : ℚ) (aportes : List Aporte) (b : Board)
    (hb : compute_board usd_inicial costo_salida hoy fecha_inicio
        horizonte_dias tna_pesos ars_hoy mep_hoy aportes = some b) :
    b.umbral_amarillo = b.be_90 * (95 / 100) ∧
    b.umbral_rojo = b.be_90 * 1 ∧
    (b.alerta = none ↔ mep_hoy < b.umbral_amarillo) ∧
    (b.alerta = some "amarilla" ↔
      b.umbral_amarillo ≤ mep_hoy ∧ mep_hoy < b.umbral_rojo) ∧
    (b.alerta = some "roja" ↔
      b.umbral_amarillo ≤ mep_hoy ∧ b.umbral_rojo ≤ mep_hoy) ∧
    (mep_hoy = b.be_90 → 0 < mep_hoy → b.alerta = some "roja") ∧
    (∀ mg, b.margen_pct = some mg → mg < 0 → b.alerta = some "roja") := by
  obtain ⟨extra, hacc, rfl⟩ :=
    (compute_board_some_iff _ _ _ _ _ _ _ _ _ _).mp hb
  obtain ⟨hN, hA, hR, hEq, hM⟩ :=
    mk_board_alert_facts hoy (hoy - fecha_inicio + 1)
      (max 0 (horizonte_dias - (hoy - fecha_inicio)))
      (fecha_inicio + horizonte_dias) mep_hoy ars_hoy
      ((ars_hoy * (1 - costo_salida)) / mep_hoy)
      ((ars_hoy * (1 - costo_salida)) / mep_hoy - usd_inicial)
      (((ars_hoy * (1 + tna_pesos *
          ((max 0 (horizonte_dias - (hoy - fecha_inicio)) : ℤ) / 365 : ℚ))
         + extra) * (1 - costo_salida)) / usd_inicial) _ rfl
  refine ⟨by simp, by simp, ?_, ?_, ?_, ?_, ?_⟩
  · simpa using hN
  · simpa using hA
  · simpa using hR
  · simpa using hEq
  · simpa using hM

/-- The board on the boundary input `usd_inicial=1`, `costo_salida=0`,
`hoy=fecha_inicio`, `horizonte_dias=0`, `tna=0`, `ars_hoy=100`,
`mep_hoy=100`: the quote equals the break-even exactly. -/
def board_borde : Board :=
  { hoy := 0, dia_n := 1, dias_restantes := 0, fecha_90 := 0, mep_hoy := 100,
    ars_hoy := 100, usd_hoy := 1, delta_usd := 0, be_90 := 100,
    margen_pct := some 0, semaforo := "🔴",
    texto_senal := "MEP ≥ BE: el carry ya no suma USD vs tu base.",
    umbral_amarillo := 95, umbral_rojo := 100, alerta := some "roja" }

/-- Witness for C2: at a quote exactly equal to the break-even the alert
level is CRITICAL (`"roja"`). -/
theorem C2_alert_classification_witness : board_borde.alerta = some "roja" :=
  (C2_alert_classification 1 0 0 0 0 0 100 100 [] board_borde
      (by norm_num [compute_board, accrue_aportes, mk_board, board_borde,
        Board.mk.injEq])).2.2.2.2.2.1 rfl (by norm_num)

/-- C3 counterexample: on the spec's §8 example input the computed values
differ from the claim's quoted approximations by more than half a unit in
their last printed digit (the natural reading of `≈` at the stated
precision): `usd_value_today` is `2027.375`, not `≈ 2026.4` (off by `0.975`);
`break_even_quote` is `≈ 1689.25`, not `≈ 1688.9` (off by `≈ 0.35`);
`margin_fraction` is `≈ 0.28963`, not `≈ 0.2895` (off by `≈ 0.00013`);
the spec-side projected value is `≈ 2721849.3`, not `≈ 2721746`. -/
theorem C3_example_values_counterexample :
    compute_board 1600 (7 / 1000) 739252 739252 90 (45 / 100) 2450000 1200 []
        = some board_ej ∧
    board_ej.usd_hoy = 16219 / 8 ∧
    ¬ |(16219 / 8 : ℚ) - 20264 / 10| ≤ 1 / 20 ∧
    board_ej.be_90 = 39460827 / 23360 ∧
    ¬ |(39460827 / 23360 : ℚ) - 16889 / 10| ≤ 1 / 20 ∧
    board_ej.margen_pct = some (3809609 / 13153609) ∧
    ¬ |(3809609 / 13153609 : ℚ) - 2895 / 10000| ≤ 5 / 100000 ∧
    spec_projected_local_at_horizon 2450000 (45 / 100) 90 (739252 + 90) []
        = 198695000 / 73 ∧
    ¬ |(198695000 / 73 : ℚ) - 2721746| ≤ 1 / 2 := by
  refine ⟨by norm_num [compute_board, accrue_aportes, mk_board, board_ej,
      Board.mk.injEq], rfl, by rw [abs_le]; norm_num, rfl,
    by rw [abs_le]; norm_num, rfl, by rw [abs_le]; norm_num,
    by norm_num [spec_projected_local_at_horizon, spec_contrib_accrual],
    by rw [abs_le]; norm_num⟩

/-- C3 amended: on the spec's §8 example input (`today = start_date =
2025-01-01`, ordinal 739252) `compute_board` yields `day_index = 1`,
`remaining_days = 90`, `usd_value_today = 2027.375`, `delta_usd = 427.375`,
`projected_local_at_horizon = 198695000/73 ≈ 2721849.3`,
`break_even_quote = 39460827/23360 ≈ 1689.25`,
`margin_fraction = 3809609/13153609 ≈ 0.2896`, and alert level NONE. -/
theorem C3_example_values_amended :
    compute_board 1600 (7 / 1000) 739252 739252 90 (45 / 100) 2450000 1200 []
        = some board_ej ∧
    board_ej.dia_n = 1 ∧
    board_ej.dias_restantes = 90 ∧
    board_ej.usd_hoy = 16219 / 8 ∧
    board_ej.delta_usd = 3419 / 8 ∧
    spec_projected_local_at_horizon 2450000 (45 / 100) 90 (739252 + 90) []
        = 198695000 / 73 ∧
    board_ej.be_90 = 39460827 / 23360 ∧
    board_ej.margen_pct = some (3809609 / 13153609) ∧
    board_ej.alerta = none :=
  ⟨by norm_num [compute_board, accrue_aportes, mk_board, board_ej,
      Board.mk.injEq], rfl, rfl, rfl, rfl,
    by norm_num [spec_projected_local_at_horizon, spec_contrib_accrual],
    rfl, rfl, rfl⟩

/-- A contribution the loop skips — unparseable date, or dated strictly
after `fecha_90` — can be removed from the list (at any position) without
changing the loop's result. -/
theorem accrue_aportes_skip (tna : ℚ) (f90 : ℤ) (ap : Aporte)
    (hskip : ap.fecha = none ∨ ∃ d, ap.fecha = some d ∧ f90 < d)
    (l1 l2 : List Aporte) :
    accrue_aportes tna f90 (l1 ++ ap :: l2) =
      accrue_aportes tna f90 (l1 ++ l2) := by
  induction l1 with
  | nil =>
    rcases hskip with h | ⟨d, hd, hgt⟩
    · simp [accrue_aportes, h]
    · simp [accrue_aportes, hd, if_pos hgt]
  | cons a rest ih =>
    obtain ⟨f, m⟩ := a
    cases f with
    | none => simpa [accrue_aportes] using ih
    | some d =>
      by_cases h : f90 < d
      · simpa [accrue_aportes, if_pos h] using ih
      · cases m with
        | none => simp [accrue_aportes, if_neg h]
        | some mv => simp [accrue_aportes, if_neg h, ih]

/-- C5: a contribution dated strictly after `horizon_end` changes nothing —
the whole board is identical with or without it — and a contribution dated
exactly on `horizon_end` is added by the loop at face value
(`days_to_horizon = 0`, accrual factor `1`). -/
theorem C5_contribution_horizon_boundary
    (usd_inicial costo_salida : ℚ) (hoy fecha_inicio horizonte_dias : ℤ)
    (tna_pesos ars_hoy mep_hoy : ℚ) (ap : Aporte) (d : ℤ)
    (l1 l2 : List Aporte) (m : ℚ) (rest : List Aporte)
    (hd : ap.fecha = some d) (hgt : fecha_inicio + horizonte_dias < d) :
    compute_board usd_inicial costo_salida hoy fecha_inicio horizonte_dias
        tna_pesos ars_hoy mep_hoy (l1 ++ ap :: l2) =
      compute_board usd_inicial costo_salida hoy fecha_inicio horizonte_dias
        tna_pesos ars_hoy mep_hoy (l1 ++ l2) ∧
    accrue_aportes tna_pesos (fecha_inicio + horizonte_dias)
        ({ fecha := some (fecha_inicio + horizonte_dias),
           monto := some m } :: rest) =
      (accrue_aportes tna_pesos (fecha_inicio + horizonte_dias) rest).map
        (fun s => m + s) := by
  constructor
  · simp only [compute_board]
    rw [accrue_aportes_skip tna_pesos _ ap (Or.inr ⟨d, hd, hgt⟩) l1 l2]
  · simp [accrue_aportes]

/-- Witness for C5: a contribution dated one day past the example's horizon
end leaves the example board unchanged, and one dated exactly on the horizon
end adds its face value `7`. -/
theorem C5_contribution_horizon_boundary_witness :
    compute_board 1600 (7 / 1000) 739252 739252 90 (45 / 100) 2450000 1200
        [{ fecha := some 739343, monto := some 5 }] =
      compute_board 1600 (7 / 1000) 739252 739252 90 (45 / 100) 2450000 1200
        [] ∧
    accrue_aportes (45 / 100) (739252 + 90)
        ({ fecha := some (739252 + 90), monto := some 7 } :: []) =
      (accrue_aportes (45 / 100) (739252 + 90) []).map (fun s => 7 + s) :=
  C5_contribution_horizon_boundary 1600 (7 / 1000) 739252 739252 90 (45 / 100)
    2450000 1200 { fecha := some 739343, monto := some 5 } 739343 [] [] 7 []
    rfl (by norm_num)

/-- C6: a contribution whose date string does not parse is skipped: the
board (wherever the entry sits in the list) is identical to the one computed
from the remaining entries, and in particular the unparseable date never
aborts the computation. -/
theorem C6_unparseable_date_skipped
    (usd_inicial costo_salida : ℚ) (hoy fecha_inicio horizonte_dias : ℤ)
    (tna_pesos ars_hoy mep_hoy : ℚ) (ap : Aporte) (l1 l2 : List Aporte)
    (hd : ap.fecha = none) :
    compute_board usd_inicial costo_salida hoy fecha_inicio horizonte_dias
        tna_pesos ars_hoy mep_hoy (l1 ++ ap :: l2) =
      compute_board usd_inicial costo_salida hoy fecha_inicio horizonte_dias
        tna_pesos ars_hoy mep_hoy (l1 ++ l2) := by
  simp only [compute_board]
  rw [accrue_aportes_skip tna_pesos _ ap (Or.inl hd) l1 l2]

/-- Witness for C6: inserting an entry with an unparseable date (and even an
unconvertible amount) between two well-formed contributions leaves the
example board unchanged. -/
theorem C6_unparseable_date_skipped_witness :
    compute_board 1600 (7 / 1000) 739252 739252 90 (45 / 100) 2450000 1200
        ([{ fecha := some 739260, monto := some 1000 }] ++
          { fecha := none, monto := none } ::
            [{ fecha := some 739300, monto := some 2000 }]) =
      compute_board 1600 (7 / 1000) 739252 739252 90 (45 / 100) 2450000 1200
        ([{ fecha := some 739260, monto := some 1000 }] ++
          [{ fecha := some 739300, monto := some 2000 }]) :=
  C6_unparseable_date_skipped 1600 (7 / 1000) 739252 739252 90 (45 / 100)
    2450000 1200 { fecha := none, monto := none }
    [{ fecha := some 739260, monto := some 1000 }]
    [{ fecha := some 739300, monto := some 2000 }] rfl

/-- C7: whenever `compute_board` produces a board, `margin_fraction` is
`(break_even_quote - quote_today) / break_even_quote` when
`break_even_quote > 0`, and NaN (modelled as `none`) when
`break_even_quote ≤ 0`; the margin computation itself never raises — it is
defined (as one of these two values) in every produced board. -/
theorem C7_margin_fraction
    (usd_inicial costo_salida : ℚ) (hoy fecha_inicio horizonte_dias : ℤ)
    (tna_pesos ars_hoy mep_hoy : ℚ) (aportes : List Aporte) (b : Board)
    (hb : compute_board usd_inicial costo_salida hoy fecha_inicio
        horizonte_dias tna_pesos ars_hoy mep_hoy aportes = some b) :
    (0 < b.be_90 → b.margen_pct = some ((b.be_90 - mep_hoy) / b.be_90)) ∧
    (b.be_90 ≤ 0 → b.margen_pct = none) := by
  obtain ⟨extra, hacc, rfl⟩ :=
    (compute_board_some_iff _ _ _ _ _ _ _ _ _ _).mp hb
  constructor
  · intro h
    simp only [mk_board_be_90] at h
    simp only [mk_board_margen_pct, mk_board_be_90]
    rw [if_pos h]
  · intro h
    simp only [mk_board_be_90] at h
    simp only [mk_board_margen_pct]
    rw [if_neg (not_lt.mpr h)]

/-- Witness for C7: on the §8 example board (positive break-even) the margin
is exactly `(be_90 - 1200) / be_90`. -/
theorem C7_margin_fraction_witness :
    board_ej.margen_pct = some ((board_ej.be_90 - 1200) / board_ej.be_90) :=
  (C7_margin_fraction 1600 (7 / 1000) 739252 739252 90 (45 / 100) 2450000
      1200 [] board_ej
      (by norm_num [compute_board, accrue_aportes, mk_board, board_ej,
        Board.mk.injEq])).1
    (by norm_num [board_ej])

/-- C8: `compute_board` is deterministic — two invocations with identical
inputs and the same timezone-derived `hoy` produce identical results, field
for field. -/
theorem C8_deterministic
    (usd_inicial costo_salida : ℚ) (hoy fecha_inicio horizonte_dias : ℤ)
    (tna_pesos ars_hoy mep_hoy : ℚ) (aportes : List Aporte)
    (o1 o2 : Option Board)
    (h1 : compute_board usd_inicial costo_salida hoy fecha_inicio
        horizonte_dias tna_pesos ars_hoy mep_hoy aportes = o1)
    (h2 : compute_board usd_inicial costo_salida hoy fecha_inicio
        horizonte_dias tna_pesos ars_hoy mep_hoy aportes = o2) :
    o1 = o2 :=
  h1.symm.trans h2

/-- Witness for C8: two runs of the §8 example input agree. -/
theorem C8_deterministic_witness :
    (some board_ej : Option Board) = some board_ej :=
  C8_deterministic 1600 (7 / 1000) 739252 739252 90 (45 / 100) 2450000 1200
    [] _ _
    (by norm_num [compute_board, accrue_aportes, mk_board, board_ej,
      Board.mk.injEq])
    (by norm_num [compute_board, accrue_aportes, mk_board, board_ej,
      Board.mk.injEq])

/-- C9: in the ready state, `'aporte X'` for a user whose `ars_hoy = A`
yields `ars_hoy = A + X` AND appends `[today, X]` to `aportes` (so a later
`compute_board` accrues `X` both inside `ars_hoy` and again as a standalone
contribution); every other user field is unchanged, and the reply is the
confirmation text. -/
theorem C9_aporte_double_count (hoy : ℤ) (user : CarryUser) (A monto : ℚ)
    (hstep : user.step = "ready") (hars : user.ars_hoy = some A) :
    (process_aporte hoy user monto).1.ars_hoy = some (A + monto) ∧
    (process_aporte hoy user monto).1.aportes =
      user.aportes ++ [{ fecha := some hoy, monto := some monto }] ∧
    (process_aporte hoy user monto).1.step = user.step ∧
    (process_aporte hoy user monto).1.tna_pesos = user.tna_pesos ∧
    (process_aporte hoy user monto).1.horizonte_dias = user.horizonte_dias ∧
    (process_aporte hoy user monto).1.fecha_inicio = user.fecha_inicio ∧
    (process_aporte hoy user monto).1.last_sent = user.last_sent ∧
    (process_aporte hoy user monto).1.last_ars_update =
      user.last_ars_update ∧
    (process_aporte hoy user monto).2 = "✅ Aporte registrado." := by
  obtain ⟨st, ah, tn, hd, fi, aps, ls, lu⟩ := user
  simp only [CarryUser.ars_hoy] at hars
  subst hars
  simp [process_aporte]

/-- A fully configured user in the ready state (`ars_hoy = 100`,
`tna = 0.45`, `horizonte_dias = 90`, `fecha_inicio` ordinal 0),
not yet notified today. -/
def user_listo : CarryUser :=
  { step := "ready", ars_hoy := some 100, tna_pesos := some (45 / 100),
    horizonte_dias := some 90, fecha_inicio := 0, aportes := [],
    last_sent := none, last_ars_update := none }

/-- The board `compute_board` produces for `user_listo` on day 0 with
`mep = 100`, `usd_inicial = 1600`, `costo_salida = 0.007`. -/
def board_usuario : Board :=
  { hoy := 0, dia_n := 1, dias_restantes := 90, fecha_90 := 90,
    mep_hoy := 100, ars_hoy := 100, usd_hoy := 993 / 1000,
    delta_usd := -1599007 / 1000, be_90 := 805323 / 11680000,
    margen_pct := some (-1167194677 / 805323), semaforo := "🔴",
    texto_senal := "MEP ≥ BE: el carry ya no suma USD vs tu base.",
    umbral_amarillo := 15301137 / 233600000,
    umbral_rojo := 805323 / 11680000, alerta := some "roja" }

/-- Witness for C9: `'aporte 5'` for `user_listo` (whose `ars_hoy` is 100)
yields `ars_hoy = 105` and appends the dated contribution, leaving every
other field untouched. -/
theorem C9_aporte_double_count_witness :
    (process_aporte 0 user_listo 5).1.ars_hoy = some (100 + 5) ∧
    (process_aporte 0 user_listo 5).1.aportes =
      user_listo.aportes ++ [{ fecha := some 0, monto := some 5 }] ∧
    (process_aporte 0 user_listo 5).1.step = user_listo.step ∧
    (process_aporte 0 user_listo 5).1.tna_pesos = user_listo.tna_pesos ∧
    (process_aporte 0 user_listo 5).1.horizonte_dias =
      user_listo.horizonte_dias ∧
    (process_aporte 0 user_listo 5).1.fecha_inicio =
      user_listo.fecha_inicio ∧
    (process_aporte 0 user_listo 5).1.last_sent = user_listo.last_sent ∧
    (process_aporte 0 user_listo 5).1.last_ars_update =
      user_listo.last_ars_update ∧
    (process_aporte 0 user_listo 5).2 = "✅ Aporte registrado." :=
  C9_aporte_double_count 0 user_listo 100 5 rfl rfl

/-- C4 (code bug): in `daily_job.main` a delivery failure for one user DOES
block processing of the others.  With two fully configured users and
delivery failing only for the first, the whole run aborts with the
propagated exception: the second user is never computed or messaged and
`save_state` never runs (first conjunct).  With delivery working, both users
receive their daily and alert messages (second conjunct), showing the abort
is caused precisely by the first user's delivery failure. -/
theorem C4_delivery_failure_blocks_rest :
    run_daily (fun c => c != "1") 0 100 1600 (7 / 1000)
        [("1", user_listo), ("2", user_listo)] = Except.error "1" ∧
    (run_daily (fun _ => true) 0 100 1600 (7 / 1000)
        [("1", user_listo), ("2", user_listo)]).map
        (fun r => r.2.map Prod.fst) =
      Except.ok ["1", "1", "2", "2"] := by
  have hcb : compute_board 1600 (7 / 1000) 0 0 90 (45 / 100) 100 100 [] =
      some board_usuario := by
    norm_num [compute_board, accrue_aportes, mk_board, board_usuario,
      Board.mk.injEq]
  constructor
  · simp [run_daily, try_send, user_listo, hcb, board_usuario, Except.bind]
  · simp [run_daily, try_send, user_listo, hcb, board_usuario, Except.bind,
      Except.map]

/-- C10: the loop's resilience covers only the contribution date, not the
amount: an entry whose date parses (and is on or before the horizon end) but
whose amount is not convertible makes `compute_board` raise (produce no
board), while the same call without that entry succeeds. -/
theorem C10_bad_amount_raises :
    compute_board 1600 (7 / 1000) 739252 739252 90 (45 / 100) 2450000 1200
        [{ fecha := some 739252, monto := none }] = none ∧
    (compute_board 1600 (7 / 1000) 739252 739252 90 (45 / 100) 2450000 1200
        []).isSome = true := by
  constructor
  · norm_num [compute_board, accrue_aportes]
  · norm_num [compute_board, accrue_aportes]

end CarryBot
